import Mathlib

/-!
Verification development for the `weather` CLI (src/weather.py).

The program is a resolve-geocode-fetch-format pipeline.  We shallowly embed
the response-processing and formatting logic of the source file:

* JSON scalar values are modelled by `JVal` (Python `None`, `bool`, `int`,
  `float`, `str`); Python floats are modelled exactly by rationals (`Rat`).
  Non-finite float literals (`inf`, `nan`), digit-group underscores and exotic
  ISO-8601 forms are outside the model: no claim touches them.
* Fallible Python operations (dict key lookup, list indexing, implicit
  `TypeError` on `"\n".join`) are modelled in the `Except Unit` monad; a
  `.error ()` result models an uncaught exception escaping the function.
* The process-terminating paths of the two geocoder functions are modelled by
  an explicit `SearchResult` outcome (exit code plus diagnostic lines).
-/

namespace Weather

/-- Exit code for success (src/weather.py line 20). -/
def EXIT_OK : Nat := 0

/-- Exit code for location / postal code not found (line 21). -/
def EXIT_LOCATION_NOT_FOUND : Nat := 1

/-- Exit code for network errors (line 22). -/
def EXIT_NETWORK_ERROR : Nat := 2

/-- Exit code for API errors, malformed bodies, missing data (line 23). -/
def EXIT_API_ERROR : Nat := 3

/-- Exit code for invalid input (line 24). -/
def EXIT_INVALID_INPUT : Nat := 4

/-- Exit code for ambiguous locations (line 25). -/
def EXIT_AMBIGUOUS : Nat := 5

/-- A JSON scalar value as Python sees it: `None`, `bool`, `int`, `float`
(modelled as `Rat`), or `str`. -/
inductive JVal where
  | null : JVal
  | bool (b : Bool) : JVal
  | int (n : Int) : JVal
  | num (q : Rat) : JVal
  | str (s : String) : JVal
  deriving DecidableEq, Repr, Inhabited

/-- An ASCII apostrophe, used in several diagnostic messages. -/
def sq : String := String.singleton (Char.ofNat 39)

/-- Decimal digit value of a character, if it is a digit. -/
def digit? (c : Char) : Option Nat :=
  if c.isDigit then some (c.toNat - 48) else none

/-- Python `str.strip()` on the character list: drop leading and trailing
whitespace. -/
def pyStrip (cs : List Char) : List Char :=
  ((cs.dropWhile Char.isWhitespace).reverse.dropWhile Char.isWhitespace).reverse

/-- Python `str.upper()` (ASCII letters; country codes are ASCII). -/
def pyUpper (s : String) : String := String.mk (s.data.map Char.toUpper)

/-- Split a leading run of decimal digits off a character list. -/
def takeDigits : List Char → (List Nat × List Char)
  | [] => ([], [])
  | c :: cs =>
    match digit? c with
    | some d => let (ds, r) := takeDigits cs; (d :: ds, r)
    | none => ([], c :: cs)

/-- Value of a big-endian digit list. -/
def natOfDigits (ds : List Nat) : Nat := ds.foldl (fun a d => a * 10 + d) 0

/-- Split an optional leading sign off a character list. -/
def takeSign : List Char → (Int × List Char)
  | '+' :: r => (1, r)
  | '-' :: r => (-1, r)
  | r => (1, r)

/-- The rational value `sgn * (ip.fp) * 10^ex` of a parsed float literal,
assembled with integer arithmetic and one normalizing `mkRat`. -/
def ratOfParts (sgn : Int) (ip fp : List Nat) (ex : Int) : Rat :=
  let mant : Int := sgn * ((natOfDigits ip * 10 ^ fp.length + natOfDigits fp : Nat) : Int)
  if 0 ≤ ex then mkRat (mant * ((10 ^ ex.toNat : Nat) : Int)) (10 ^ fp.length)
  else mkRat mant (10 ^ fp.length * 10 ^ (-ex).toNat)

/-- Mantissa-and-exponent tail of the Python `float(str)` grammar: given the
sign and the integer/fraction digit lists, parse an optional exponent part. -/
def parseExpPart (sgn : Int) (ip fp : List Nat) : List Char → Option Rat
  | [] => some (ratOfParts sgn ip fp 0)
  | e :: r =>
    if e = 'e' ∨ e = 'E' then
      let (esgn, r2) := takeSign r
      let (ed, r3) := takeDigits r2
      if ed.isEmpty ∨ ¬ r3.isEmpty then none
      else some (ratOfParts sgn ip fp (esgn * (natOfDigits ed : Int)))
    else none

/-- Model of Python `float(s)` on a string: strip whitespace, optional sign,
decimal mantissa with optional fraction and exponent.  `none` models
`ValueError`.  (Non-finite literals such as `inf`/`nan` have no rational
value and are out of the model's scope.) -/
def pyFloat? (s : String) : Option Rat :=
  let cs := pyStrip s.data
  let (sgn, cs1) := takeSign cs
  let (ip, cs2) := takeDigits cs1
  match cs2 with
  | '.' :: r =>
    let (fp, r2) := takeDigits r
    if ip.isEmpty ∧ fp.isEmpty then none else parseExpPart sgn ip fp r2
  | r => if ip.isEmpty then none else parseExpPart sgn ip [] r

/-- Model of Python `int(s)`: strip whitespace, optional sign, nonempty run
of decimal digits.  `none` models `ValueError`. -/
def pyInt? (s : String) : Option Int :=
  let cs := pyStrip s.data
  let (sgn, cs1) := takeSign cs
  let (ds, rest) := takeDigits cs1
  if ds.isEmpty ∨ ¬ rest.isEmpty then none else some (sgn * (natOfDigits ds : Int))

/-- Truthiness of Python `Optional[str]`: `None` and the empty string are
falsy, every other string is truthy. -/
def pyTruthy : Option String → Bool
  | none => false
  | some s => !s.isEmpty

/-- `safe_float` (src/weather.py lines 355-362): `None` becomes the default;
otherwise `float(value)` is attempted, with `TypeError`/`ValueError` mapped to
the default.  `float` on a bool gives 0/1, on int/float the value itself, on a
string the parsed literal. -/
def safe_float (value : JVal) (default : Rat) : Rat :=
  match value with
  | .null => default
  | .bool b => if b then 1 else 0
  | .int n => (n : Rat)
  | .num q => q
  | .str s =>
    match pyFloat? s with
    | some q => q
    | none => default

/-- Whether Python `float(value)` would succeed on the value (`None` excluded,
per the `is None` guard preceding the conversion in `safe_float`). -/
def floatConvertible : JVal → Bool
  | .null => false
  | .bool _ => true
  | .int _ => true
  | .num _ => true
  | .str s => (pyFloat? s).isSome

/-- Gregorian leap-year predicate. -/
def isLeap (y : Nat) : Bool := y % 4 = 0 ∧ (y % 100 ≠ 0 ∨ y % 400 = 0)

/-- Days in a Gregorian month. -/
def daysInMonth (y m : Nat) : Nat :=
  if m = 2 then (if isLeap y then 29 else 28)
  else if m = 4 ∨ m = 6 ∨ m = 9 ∨ m = 11 then 30
  else 31

/-- Python `datetime.weekday()` (Monday = 0) computed from a civil date via
the standard days-from-civil algorithm. -/
def pyWeekday (y m d : Nat) : Nat :=
  let yy := if m ≤ 2 then y - 1 else y
  let era := yy / 400
  let yoe := yy % 400
  let mp := if 2 < m then m - 3 else m + 9
  let doy := (153 * mp + 2) / 5 + (d - 1)
  let doe := yoe * 365 + yoe / 4 - yoe / 100 + doy
  (era * 146097 + doe + 2) % 7

/-- Read exactly two digits. -/
def twoDigits? (a b : Char) : Option Nat := do
  let x ← digit? a
  let y ← digit? b
  pure (x * 10 + y)

/-- Read exactly four digits. -/
def fourDigits? (a b c d : Char) : Option Nat := do
  let x ← twoDigits? a b
  let y ← twoDigits? c d
  pure (x * 100 + y)

/-- A parsed ISO timestamp: calendar date plus optional hour/minute. -/
structure IsoStamp where
  year : Nat
  month : Nat
  day : Nat
  hm : Option (Nat × Nat)
  deriving DecidableEq, Repr

/-- Validate the calendar fields (Python `datetime` range checks). -/
def mkStamp? (y m d : Nat) (hm : Option (Nat × Nat)) : Option IsoStamp :=
  let hmOk : Bool := match hm with | none => true | some (h, mi) => h < 24 ∧ mi < 60
  if 1 ≤ y ∧ 1 ≤ m ∧ m ≤ 12 ∧ 1 ≤ d ∧ d ≤ daysInMonth y m ∧ hmOk = true then
    some ⟨y, m, d, hm⟩
  else none

/-- Tail of an ISO timestamp after `HH:MM`: empty, or seconds `:SS`. -/
def isoTail (h mi : Nat) : List Char → Option (Nat × Nat)
  | [] => some (h, mi)
  | [':', s1, s2] => do
    let s ← twoDigits? s1 s2
    if s < 60 then pure (h, mi) else none
  | _ => none

/-- Model of Python `datetime.fromisoformat` restricted to the shapes the
forecast service emits: `YYYY-MM-DD`, optionally followed by `T` or a space
and `HH:MM[:SS]`.  `none` models `ValueError`. -/
def parseISO (s : String) : Option IsoStamp :=
  match s.data with
  | [y1, y2, y3, y4, '-', m1, m2, '-', d1, d2] => do
    let y ← fourDigits? y1 y2 y3 y4
    let m ← twoDigits? m1 m2
    let d ← twoDigits? d1 d2
    mkStamp? y m d none
  | y1 :: y2 :: y3 :: y4 :: '-' :: m1 :: m2 :: '-' :: d1 :: d2 :: sep :: h1 :: h2 :: ':' :: mi1 :: mi2 :: rest => do
    if sep = 'T' ∨ sep = ' ' then
      let y ← fourDigits? y1 y2 y3 y4
      let m ← twoDigits? m1 m2
      let d ← twoDigits? d1 d2
      let h ← twoDigits? h1 h2
      let mi ← twoDigits? mi1 mi2
      let hm ← isoTail h mi rest
      mkStamp? y m d (some hm)
    else none
  | _ => none

/-- Two-digit zero-padded decimal rendering. -/
def pad2 (n : Nat) : String := if n < 10 then "0" ++ toString n else toString n

/-- Left-justify a string in a field of `w` characters (Python `f-string`
width spec on strings; never truncates). -/
def padRight (s : String) (w : Nat) : String :=
  s ++ String.mk (List.replicate (w - s.length) ' ')

/-- Right-justify a string in a field of `w` characters (Python numeric
width spec; never truncates). -/
def padLeft (s : String) (w : Nat) : String :=
  String.mk (List.replicate (w - s.length) ' ') ++ s

/-- Round `10 * q` to the nearest integer, ties to even (the rounding of
Python `format(x, ".1f")` at the rational value), computed with integer
floor division. -/
def roundTenth (q : Rat) : Int :=
  let n := q.num * 10
  let d : Int := (q.den : Int)
  let f := n.fdiv d
  let r := n.fmod d
  if 2 * r < d then f
  else if d < 2 * r then f + 1
  else if f % 2 = 0 then f else f + 1

/-- Model of Python `f"{x:.1f}"` on the rational value: one digit after the
decimal point, ties to even. -/
def fmt1 (q : Rat) : String :=
  let n := roundTenth q
  let a := n.natAbs
  (if n < 0 then "-" else "") ++ toString (a / 10) ++ "." ++ toString (a % 10)

/-- Display language (the `LANG` table keys, src/weather.py lines 36-167). -/
inductive Lang where
  | de : Lang
  | en : Lang
  deriving DecidableEq, Repr

/-- Translation keys used by the modelled functions (the string keys of the
`LANG` table). -/
inductive TKey where
  | error
  | weather_for
  | condition
  | temperature
  | precipitation
  | wind_max
  | unknown
  | to
  | use_plz
  | missing_coords
  deriving DecidableEq, Repr

/-- The weekday-name lists of the `LANG` table (lines 38 and 103). -/
def weekdays (lang : Lang) : List String :=
  match lang with
  | .de => ["Montag", "Dienstag", "Mittwoch", "Donnerstag", "Freitag", "Samstag", "Sonntag"]
  | .en => ["Monday", "Tuesday", "Wednesday", "Thursday", "Friday", "Saturday", "Sunday"]

/-- The weather-code description table (lines 39-68 and 104-133). -/
def weatherTable (lang : Lang) (n : Int) : Option String :=
  match lang, n with
  | .de, 0 => some "Klar"
  | .de, 1 => some "Überwiegend klar"
  | .de, 2 => some "Teilweise bewölkt"
  | .de, 3 => some "Bewölkt"
  | .de, 45 => some "Nebel"
  | .de, 48 => some "Nebel mit Reif"
  | .de, 51 => some "Leichter Nieselregen"
  | .de, 53 => some "Mäßiger Nieselregen"
  | .de, 55 => some "Starker Nieselregen"
  | .de, 56 => some "Gefrierender Nieselregen (leicht)"
  | .de, 57 => some "Gefrierender Nieselregen (stark)"
  | .de, 61 => some "Leichter Regen"
  | .de, 63 => some "Mäßiger Regen"
  | .de, 65 => some "Starker Regen"
  | .de, 66 => some "Gefrierender Regen (leicht)"
  | .de, 67 => some "Gefrierender Regen (stark)"
  | .de, 71 => some "Leichter Schneefall"
  | .de, 73 => some "Mäßiger Schneefall"
  | .de, 75 => some "Starker Schneefall"
  | .de, 77 => some "Schneegriesel"
  | .de, 80 => some "Leichte Regenschauer"
  | .de, 81 => some "Mäßige Regenschauer"
  | .de, 82 => some "Starke Regenschauer"
  | .de, 85 => some "Leichte Schneeschauer"
  | .de, 86 => some "Starke Schneeschauer"
  | .de, 95 => some "Gewitter"
  | .de, 96 => some "Gewitter mit leichtem Hagel"
  | .de, 99 => some "Gewitter mit starkem Hagel"
  | .en, 0 => some "Clear"
  | .en, 1 => some "Mostly clear"
  | .en, 2 => some "Partly cloudy"
  | .en, 3 => some "Cloudy"
  | .en, 45 => some "Fog"
  | .en, 48 => some "Freezing fog"
  | .en, 51 => some "Light drizzle"
  | .en, 53 => some "Moderate drizzle"
  | .en, 55 => some "Heavy drizzle"
  | .en, 56 => some "Light freezing drizzle"
  | .en, 57 => some "Heavy freezing drizzle"
  | .en, 61 => some "Light rain"
  | .en, 63 => some "Moderate rain"
  | .en, 65 => some "Heavy rain"
  | .en, 66 => some "Light freezing rain"
  | .en, 67 => some "Heavy freezing rain"
  | .en, 71 => some "Light snowfall"
  | .en, 73 => some "Moderate snowfall"
  | .en, 75 => some "Heavy snowfall"
  | .en, 77 => some "Snow grains"
  | .en, 80 => some "Light rain showers"
  | .en, 81 => some "Moderate rain showers"
  | .en, 82 => some "Heavy rain showers"
  | .en, 85 => some "Light snow showers"
  | .en, 86 => some "Heavy snow showers"
  | .en, 95 => some "Thunderstorm"
  | .en, 96 => some "Thunderstorm with light hail"
  | .en, 99 => some "Thunderstorm with heavy hail"
  | _, _ => none

/-- `t(key)` (lines 173-175) restricted to the keys the modelled functions
use.  Keys that the source interpolates with `.format` are modelled by the
dedicated message builders below instead. -/
def t (lang : Lang) (k : TKey) : String :=
  match lang, k with
  | .de, .error => "Fehler"
  | .de, .weather_for => "Wetter für"
  | .de, .condition => "Wetterlage"
  | .de, .temperature => "Temperatur"
  | .de, .precipitation => "Niederschlag"
  | .de, .wind_max => "Wind (max)"
  | .de, .unknown => "Unbekannt"
  | .de, .to => "bis"
  | .de, .use_plz => "weather.py --plz <PLZ>"
  | .de, .missing_coords => "Koordinaten fehlen."
  | .en, .error => "Error"
  | .en, .weather_for => "Weather for"
  | .en, .condition => "Condition"
  | .en, .temperature => "Temperature"
  | .en, .precipitation => "Precipitation"
  | .en, .wind_max => "Wind (max)"
  | .en, .unknown => "Unknown"
  | .en, .to => "to"
  | .en, .use_plz => "weather.py --plz <postal_code>"
  | .en, .missing_coords => "Coordinates missing."

/-- `t("location_not_found").format(name=name)` (lines 84 / 149). -/
def msg_location_not_found (lang : Lang) (name : String) : String :=
  match lang with
  | .de => "Ort " ++ sq ++ name ++ sq ++ " nicht gefunden."
  | .en => "Location " ++ sq ++ name ++ sq ++ " not found."

/-- `t("plz_not_found").format(plz=plz)` (lines 85 / 150). -/
def msg_plz_not_found (lang : Lang) (plz : String) : String :=
  match lang with
  | .de => "PLZ " ++ sq ++ plz ++ sq ++ " nicht gefunden."
  | .en => "Postal code " ++ sq ++ plz ++ sq ++ " not found."

/-- `t("ambiguous_name").format(name=name)` (lines 86 / 151). -/
def msg_ambiguous_name (lang : Lang) (name : String) : String :=
  match lang with
  | .de => sq ++ name ++ sq ++ " ist nicht eindeutig. Bitte PLZ verwenden:"
  | .en => sq ++ name ++ sq ++ " is ambiguous. Please use postal code:"

/-- `t("ambiguous_plz").format(plz=plz, countries=countries)` (lines 87 / 152). -/
def msg_ambiguous_plz (lang : Lang) (plz countries : String) : String :=
  match lang with
  | .de => "PLZ " ++ sq ++ plz ++ sq ++ " existiert in mehreren Ländern: " ++ countries
  | .en => "Postal code " ++ sq ++ plz ++ sq ++ " exists in multiple countries: " ++ countries

/-- `t("use_country").format(plz=plz)` (lines 89 / 154). -/
def msg_use_country (lang : Lang) (plz : String) : String :=
  match lang with
  | .de => "Bitte mit --land eingrenzen, z.B.: weather.py --plz " ++ plz ++ " --land DE"
  | .en => "Please specify country, e.g.: weather.py --plz " ++ plz ++ " --country DE"

/-- `get_weather_desc` (lines 178-180): look the code up in the active
language's weather table, falling back to `"Code {code}"`.  Python dict
lookup identifies `True`/`False` and equal-valued floats with the int keys;
the fallback repr of a non-integral float is approximated. -/
def get_weather_desc (lang : Lang) (code : JVal) : String :=
  match code with
  | .int n =>
    match weatherTable lang n with
    | some s => s
    | none => "Code " ++ toString n
  | .bool b =>
    match weatherTable lang (if b then 1 else 0) with
    | some s => s
    | none => "Code " ++ (if b then "True" else "False")
  | .num q =>
    if q.den = 1 then
      match weatherTable lang q.num with
      | some s => s
      | none => "Code " ++ toString q.num ++ ".0"
    else "Code " ++ toString q.num ++ "/" ++ toString q.den
  | .null => "Code None"
  | .str s => "Code " ++ s

/-- `get_weekday` (lines 183-185): index the active language's weekday list.
The index always comes from `datetime.weekday()` and is in range. -/
def get_weekday (lang : Lang) (idx : Nat) : String := (weekdays lang).getD idx ""

/-- Outcome of one geocoder call, after the HTTP response body has been
decoded: either a resolved `(lat, lon, display name)` triple, a process exit
with an exit code and the diagnostic lines printed to stderr, or an uncaught
Python exception. -/
inductive SearchResult where
  | ok (lat lon : Rat) (displayName : String) : SearchResult
  | exit (code : Nat) (diag : List String) : SearchResult
  | raise : SearchResult
  deriving DecidableEq, Repr

/-- `error_exit` (lines 188-191): print `"{t('error')}: {message}"` to stderr
and exit with the code. -/
def error_exit (lang : Lang) (message : String) (code : Nat) : SearchResult :=
  .exit code [t lang .error ++ ": " ++ message]

/-- One result object of the Open-Meteo geocoding response, with the fields
`search_by_name` reads.  `none` models an absent key (`dict.get` then
yields Python `None`). -/
structure GeoResult where
  latitude : Option Rat
  longitude : Option Rat
  name : Option String
  country : Option String
  deriving DecidableEq, Repr

/-- `search_by_name` (lines 209-261), response-processing part: the model
starts where the decoded JSON `results` list is in hand (the HTTP and
JSON-decode failure paths are network behaviour outside the model).
Mirrors lines 234-261. -/
def search_by_name (lang : Lang) (name : String) (results : List GeoResult) : SearchResult :=
  match results with
  | [] => error_exit lang (msg_location_not_found lang name) EXIT_LOCATION_NOT_FOUND
  | first :: rest =>
    if (first :: rest).length > 1 ∧
        rest.any fun r => r.latitude ≠ first.latitude ∨ r.longitude ≠ first.longitude then
      .exit EXIT_AMBIGUOUS [msg_ambiguous_name lang name, "  " ++ t lang .use_plz]
    else
      match first.latitude, first.longitude with
      | some lat, some lon =>
        let location_name := first.name.getD name
        let country := first.country.getD ""
        let full_name := if country ≠ "" then location_name ++ ", " ++ country else location_name
        .ok lat lon full_name
      | _, _ => error_exit lang (t lang .missing_coords) EXIT_API_ERROR

/-- The `address` sub-object of a Nominatim result, with the fields
`search_by_plz` reads; `none` models an absent key.  A result without an
`address` key behaves like one whose address has no fields. -/
structure NomAddress where
  country_code : Option String
  country : Option String
  city : Option String
  town : Option String
  village : Option String
  suburb : Option String
  postcode : Option String
  deriving DecidableEq, Repr

/-- One result object of the Nominatim response.  `lat`/`lon` are the raw
string fields; `none` models an absent key (read with a bare `[...]` lookup,
so absence raises `KeyError`). -/
structure NomResult where
  lat : Option String
  lon : Option String
  address : NomAddress
  deriving DecidableEq, Repr

/-- The empty Nominatim address (all keys absent). -/
def emptyAddress : NomAddress := ⟨none, none, none, none, none, none, none⟩

/-- Lexicographic comparison of character lists by code point (Python string
order). -/
def charListLe : List Char → List Char → Bool
  | [], _ => true
  | _ :: _, [] => false
  | a :: as, b :: bs => if a < b then true else if b < a then false else charListLe as bs

/-- Python string `<=` (code-point lexicographic). -/
def strLe (a b : String) : Bool := charListLe a.data b.data

/-- Insert a string into an ascending list (code-point order, as Python
`sorted` compares strings). -/
def insertStr (x : String) : List String → List String
  | [] => [x]
  | y :: ys => if strLe x y then x :: y :: ys else y :: insertStr x ys

/-- Insertion sort on strings, modelling Python `sorted`. -/
def sortStrings (l : List String) : List String := l.foldr insertStr []

/-- The uppercased country code of one Nominatim result:
`r.get("address", {}).get("country_code", "").upper()` (line 294). -/
def countryOf (r : NomResult) : String := pyUpper (r.address.country_code.getD "")

/-- The Python `or`-chain over optional address strings: an absent key or an
empty string falls through to the next alternative. -/
def pyOrStr (o : Option String) (alt : String) : String :=
  match o with
  | some s => if s = "" then alt else s
  | none => alt

/-- `search_by_plz` (lines 264-316), response-processing part: the model
starts where the decoded JSON `results` list is in hand.  Mirrors lines
289-316; `.raise` models the uncaught `KeyError`/`ValueError` of the
unguarded `float(result["lat"])` / `float(result["lon"])` (lines 302-303). -/
def search_by_plz (lang : Lang) (plz : String) (country_code : Option String)
    (results : List NomResult) : SearchResult :=
  match results with
  | [] => error_exit lang (msg_plz_not_found lang plz) EXIT_LOCATION_NOT_FOUND
  | first :: rest =>
    if !pyTruthy country_code ∧ (first :: rest).length > 1 ∧
        ((first :: rest).map countryOf).dedup.length > 1 then
      .exit EXIT_AMBIGUOUS
        [msg_ambiguous_plz lang plz
          (String.intercalate ", " (sortStrings (((first :: rest).map countryOf).dedup))),
         msg_use_country lang plz]
    else
      match first.lat, first.lon with
      | some latS, some lonS =>
        match pyFloat? latS, pyFloat? lonS with
        | some lat, some lon =>
          let addr := first.address
          let city := pyOrStr addr.city (pyOrStr addr.town (pyOrStr addr.village (addr.suburb.getD "")))
          let country := addr.country.getD ""
          let postal := addr.postcode.getD plz
          let head := String.mk (pyStrip (postal ++ " " ++ city).data)
          let parts := if country ≠ "" then [head, country] else [head]
          let full_name := String.intercalate ", " (parts.filter (· ≠ ""))
          .ok lat lon full_name
        | _, _ => .raise
      | _, _ => .raise

/-- The `daily` section of a forecast payload, with the keys the Presenter
reads; `none` models an absent key (read with a bare `[...]` lookup). -/
structure DailySec where
  time : Option (List JVal)
  weather_code : Option (List JVal)
  temperature_2m_max : Option (List JVal)
  temperature_2m_min : Option (List JVal)
  precipitation_sum : Option (List JVal)
  wind_speed_10m_max : Option (List JVal)
  deriving DecidableEq, Repr

/-- The `hourly` section of a forecast payload. -/
structure HourlySec where
  time : Option (List JVal)
  temperature_2m : Option (List JVal)
  precipitation : Option (List JVal)
  weather_code : Option (List JVal)
  deriving DecidableEq, Repr

/-- A forecast payload that passed `get_weather`'s validation (lines 349-350):
both a `daily` and an `hourly` section are present. -/
structure Payload where
  daily : DailySec
  hourly : HourlySec
  deriving DecidableEq, Repr

/-- Python dict `[...]` lookup: an absent key raises `KeyError`. -/
def getKey : Option (List JVal) → Except Unit (List JVal)
  | some l => .ok l
  | none => .error ()

/-- Python list `[...]` indexing: an out-of-range index raises `IndexError`. -/
def getIdx (l : List JVal) (i : Nat) : Except Unit JVal :=
  match l[i]? with
  | some v => .ok v
  | none => .error ()

/-- Sequential fallible traversal, modelling a Python `for` loop that builds
a list and lets any exception escape. -/
def exceptMap (f : α → Except Unit β) : List α → Except Unit (List β)
  | [] => .ok []
  | a :: l => do
    let b ← f a
    let bs ← exceptMap f l
    .ok (b :: bs)

/-- The hour indices rendered for day `d` when the hourly time array has
`total` entries: Python `range(24*d, min(24*d + 24, total))` (lines 402-405 /
444-447). -/
def hourIdx (d total : Nat) : List Nat := List.range' (24 * d) (min 24 (total - 24 * d))

/-- One hourly entry of the JSON rendering (lines 449-455). -/
structure HourOut where
  time : JVal
  temperature : Rat
  precipitation : Rat
  weather_code : JVal
  weather_description : String
  deriving DecidableEq, Repr, Inhabited

/-- One day of the JSON rendering (lines 433-442). -/
structure DayOut where
  date : JVal
  weather_code : JVal
  weather_description : String
  temperature_min : Rat
  temperature_max : Rat
  precipitation_sum : Rat
  wind_speed_max : Rat
  hourly : List HourOut
  deriving DecidableEq, Repr, Inhabited

/-- The JSON rendering tree (lines 428, 457-459). -/
structure JsonOut where
  location : String
  days : List DayOut
  deriving DecidableEq, Repr, Inhabited

/-- One iteration of the hourly loop of `format_weather_json`
(lines 447-455). -/
def jsonHourM (lang : Lang) (data : Payload) (ht : List JVal) (i : Nat) :
    Except Unit HourOut := do
  let hwcL ← getKey data.hourly.weather_code
  let code ← getIdx hwcL i
  let tv ← getIdx ht i
  let tmpL ← getKey data.hourly.temperature_2m
  let tmpv ← getIdx tmpL i
  let prL ← getKey data.hourly.precipitation
  let prv ← getIdx prL i
  .ok { time := tv, temperature := safe_float tmpv 0, precipitation := safe_float prv 0,
        weather_code := code, weather_description := get_weather_desc lang code }

/-- One iteration of the day loop of `format_weather_json` (lines 430-457). -/
def jsonDayM (lang : Lang) (data : Payload) (dt : List JVal) (dayIdx : Nat) :
    Except Unit DayOut := do
  let wcL ← getKey data.daily.weather_code
  let code ← getIdx wcL dayIdx
  let dv ← getIdx dt dayIdx
  let tminL ← getKey data.daily.temperature_2m_min
  let tminv ← getIdx tminL dayIdx
  let tmaxL ← getKey data.daily.temperature_2m_max
  let tmaxv ← getIdx tmaxL dayIdx
  let psL ← getKey data.daily.precipitation_sum
  let psv ← getIdx psL dayIdx
  let wsL ← getKey data.daily.wind_speed_10m_max
  let wsv ← getIdx wsL dayIdx
  let htL ← getKey data.hourly.time
  let hours ← exceptMap (jsonHourM lang data htL) (hourIdx dayIdx htL.length)
  .ok { date := dv, weather_code := code, weather_description := get_weather_desc lang code,
        temperature_min := safe_float tminv 0, temperature_max := safe_float tmaxv 0,
        precipitation_sum := safe_float psv 0, wind_speed_max := safe_float wsv 0,
        hourly := hours }

/-- `format_weather_json` (lines 422-459).  A `.error ()` result models an
uncaught exception escaping the function. -/
def format_weather_json (lang : Lang) (data : Payload) (location : String) :
    Except Unit JsonOut := do
  let dt ← getKey data.daily.time
  let days ← exceptMap (jsonDayM lang data dt) (List.range dt.length)
  .ok { location := location, days := days }

/-- The separator line `"=" * 50` (line 371). -/
def ruleEq : String := String.mk (List.replicate 50 '=')

/-- The separator line `"-" * 50` (line 394). -/
def ruleDash : String := String.mk (List.replicate 50 '-')

/-- The `strftime("%H:%M")` rendering of one hourly time value with the
source's exception handling (lines 406-409): a string that parses renders its
clock time (`00:00` for a bare date), everything else renders `"??:??"`. -/
def hourTimeText (v : JVal) : String :=
  match v with
  | .str s =>
    match parseISO s with
    | some st =>
      match st.hm with
      | some (h, mi) => pad2 h ++ ":" ++ pad2 mi
      | none => "00:00"
    | none => "??:??"
  | _ => "??:??"

/-- Whether the date-line computation of `format_weather` (lines 374-378)
completes for this value: strings and falsy values do; a truthy non-string
ends up in `lines` and makes the final `"\n".join` raise `TypeError`. -/
def dateSafe : JVal → Bool
  | .null => true
  | .str _ => true
  | .int n => n = 0
  | .num q => q = 0
  | .bool b => !b

/-- The date line of one day (lines 374-378): a parseable ISO string renders
as `DD.MM.YYYY (Weekday)`; otherwise the fallback `value or t("unknown")`
applies.  On values with `dateSafe v = false` (where the source raises) the
result is unspecified. -/
def dateText (lang : Lang) (v : JVal) : String :=
  match v with
  | .str s =>
    match parseISO s with
    | some st =>
      pad2 st.day ++ "." ++ pad2 st.month ++ "." ++ toString st.year ++
        " (" ++ get_weekday lang (pyWeekday st.year st.month st.day) ++ ")"
    | none => if s = "" then t lang .unknown else s
  | .null => t lang .unknown
  | .int n => if n = 0 then t lang .unknown else ""
  | .num q => if q = 0 then t lang .unknown else ""
  | .bool b => if b then "" else t lang .unknown

/-- The date-line computation in the `Except` monad (lines 374-378 plus the
deferred `"\n".join` `TypeError`). -/
def dateLineM (lang : Lang) (v : JVal) : Except Unit String :=
  if dateSafe v then .ok (dateText lang v) else .error ()

/-- One iteration of the hourly loop of `format_weather` (lines 405-417). -/
def textHourM (lang : Lang) (data : Payload) (ht : List JVal) (i : Nat) :
    Except Unit String := do
  let tv ← getIdx ht i
  let hour := hourTimeText tv
  let tmpL ← getKey data.hourly.temperature_2m
  let tmpv ← getIdx tmpL i
  let prL ← getKey data.hourly.precipitation
  let prv ← getIdx prL i
  let hwcL ← getKey data.hourly.weather_code
  let code ← getIdx hwcL i
  let temp := safe_float tmpv 0
  let hour_precip := safe_float prv 0
  let precip_str := if 0 < hour_precip then ", " ++ fmt1 hour_precip ++ "mm" else ""
  .ok ("  " ++ hour ++ "  " ++ padLeft (fmt1 temp) 5 ++ "°C  " ++
    get_weather_desc lang code ++ precip_str)

/-- One iteration of the day loop of `format_weather` (lines 373-417): the
lines this day contributes.  Note the leading extra blank line for every day
after the first (lines 388-389) on top of the block's own leading blank
(line 392). -/
def textDayM (lang : Lang) (data : Payload) (dt : List JVal) (dayIdx : Nat) :
    Except Unit (List String) := do
  let dv ← getIdx dt dayIdx
  let date ← dateLineM lang dv
  let wcL ← getKey data.daily.weather_code
  let code ← getIdx wcL dayIdx
  let weather_desc := get_weather_desc lang code
  let tminL ← getKey data.daily.temperature_2m_min
  let tminv ← getIdx tminL dayIdx
  let tmaxL ← getKey data.daily.temperature_2m_max
  let tmaxv ← getIdx tmaxL dayIdx
  let psL ← getKey data.daily.precipitation_sum
  let psv ← getIdx psL dayIdx
  let wsL ← getKey data.daily.wind_speed_10m_max
  let wsv ← getIdx wsL dayIdx
  let htL ← getKey data.hourly.time
  let hours ← exceptMap (textHourM lang data htL) (hourIdx dayIdx htL.length)
  .ok ((if 0 < dayIdx then [""] else []) ++
    ["", date, ruleDash,
     padRight (t lang .condition) 14 ++ " " ++ weather_desc,
     padRight (t lang .temperature) 14 ++ " " ++ fmt1 (safe_float tminv 0) ++ "°C " ++
       t lang .to ++ " " ++ fmt1 (safe_float tmaxv 0) ++ "°C",
     padRight (t lang .precipitation) 14 ++ " " ++ fmt1 (safe_float psv 0) ++ " mm",
     padRight (t lang .wind_max) 14 ++ " " ++ fmt1 (safe_float wsv 0) ++ " km/h",
     ""] ++ hours)

/-- `format_weather` (lines 365-419) up to the final `"\n".join`: the list of
output lines.  A `.error ()` result models an uncaught exception. -/
def format_weather_lines (lang : Lang) (data : Payload) (location : String) :
    Except Unit (List String) := do
  let dt ← getKey data.daily.time
  let blocks ← exceptMap (textDayM lang data dt) (List.range dt.length)
  .ok ([t lang .weather_for ++ " " ++ location, ruleEq] ++ blocks.flatten)

/-- `format_weather` (lines 365-419): the joined text block. -/
def format_weather (lang : Lang) (data : Payload) (location : String) :
    Except Unit String :=
  (format_weather_lines lang data location).map (String.intercalate "\n")

/-- The raw arrays of a payload in which every key the Presenter reads is
present (the shape of the spec's `ForecastPayload` data model). -/
structure Sections where
  daily_time : List JVal
  daily_weather_code : List JVal
  daily_tmax : List JVal
  daily_tmin : List JVal
  daily_prec : List JVal
  daily_wind : List JVal
  hourly_time : List JVal
  hourly_temp : List JVal
  hourly_prec : List JVal
  hourly_wc : List JVal
  deriving DecidableEq, Repr

/-- Assemble a payload in which all required keys are present. -/
def mkPayload (w : Sections) : Payload :=
  { daily := { time := some w.daily_time, weather_code := some w.daily_weather_code,
               temperature_2m_max := some w.daily_tmax, temperature_2m_min := some w.daily_tmin,
               precipitation_sum := some w.daily_prec, wind_speed_10m_max := some w.daily_wind },
    hourly := { time := some w.hourly_time, temperature_2m := some w.hourly_temp,
                precipitation := some w.hourly_prec, weather_code := some w.hourly_wc } }

/-- Every non-time array is at least as long as its section's time array
(the spec's parallel-array invariant, relaxed to a lower bound). -/
def sectionsLenOk (w : Sections) : Prop :=
  w.daily_time.length ≤ w.daily_weather_code.length ∧
  w.daily_time.length ≤ w.daily_tmax.length ∧
  w.daily_time.length ≤ w.daily_tmin.length ∧
  w.daily_time.length ≤ w.daily_prec.length ∧
  w.daily_time.length ≤ w.daily_wind.length ∧
  w.hourly_time.length ≤ w.hourly_temp.length ∧
  w.hourly_time.length ≤ w.hourly_prec.length ∧
  w.hourly_time.length ≤ w.hourly_wc.length

instance (w : Sections) : Decidable (sectionsLenOk w) := by
  unfold sectionsLenOk; infer_instance

/-- The value of one hourly entry of the JSON rendering, read off the raw
arrays. -/
def jsonHourPure (lang : Lang) (ht htemp hprec hwc : List JVal) (i : Nat) : HourOut :=
  { time := ht.getD i .null, temperature := safe_float (htemp.getD i .null) 0,
    precipitation := safe_float (hprec.getD i .null) 0, weather_code := hwc.getD i .null,
    weather_description := get_weather_desc lang (hwc.getD i .null) }

/-- The value of one day of the JSON rendering, read off the raw arrays. -/
def jsonDayPure (lang : Lang) (w : Sections) (d : Nat) : DayOut :=
  { date := w.daily_time.getD d .null,
    weather_code := w.daily_weather_code.getD d .null,
    weather_description := get_weather_desc lang (w.daily_weather_code.getD d .null),
    temperature_min := safe_float (w.daily_tmin.getD d .null) 0,
    temperature_max := safe_float (w.daily_tmax.getD d .null) 0,
    precipitation_sum := safe_float (w.daily_prec.getD d .null) 0,
    wind_speed_max := safe_float (w.daily_wind.getD d .null) 0,
    hourly := (hourIdx d w.hourly_time.length).map
      (jsonHourPure lang w.hourly_time w.hourly_temp w.hourly_prec w.hourly_wc) }

/-- The text rendering of one hourly entry as a function of its JSON-tree
record. -/
def renderHourText (h : HourOut) : String :=
  "  " ++ hourTimeText h.time ++ "  " ++ padLeft (fmt1 h.temperature) 5 ++ "°C  " ++
    h.weather_description ++
    (if 0 < h.precipitation then ", " ++ fmt1 h.precipitation ++ "mm" else "")

/-- The text block of day `i` as a function of its JSON-tree record. -/
def renderDayText (lang : Lang) (i : Nat) (day : DayOut) : List String :=
  (if 0 < i then [""] else []) ++
  ["", dateText lang day.date, ruleDash,
   padRight (t lang .condition) 14 ++ " " ++ day.weather_description,
   padRight (t lang .temperature) 14 ++ " " ++ fmt1 day.temperature_min ++ "°C " ++
     t lang .to ++ " " ++ fmt1 day.temperature_max ++ "°C",
   padRight (t lang .precipitation) 14 ++ " " ++ fmt1 day.precipitation_sum ++ " mm",
   padRight (t lang .wind_max) 14 ++ " " ++ fmt1 day.wind_speed_max ++ " km/h",
   ""] ++ day.hourly.map renderHourText

/-- The day-count argument check of `main` (lines 486-493): argparse converts
the raw flag value with `int(...)` and then requires membership in
`range(1, 17)`; an absent flag defaults to 1.  `.error ()` models the hard
parse failure (argparse prints usage and exits 2). -/
def parse_tage (arg : Option String) : Except Unit Int :=
  match arg with
  | none => .ok 1
  | some s =>
    match pyInt? s with
    | none => .error ()
    | some n => if 1 ≤ n ∧ n ≤ 16 then .ok n else .error ()

/-- Whether a daily time value would render as a `DD.MM.YYYY (Weekday)` date
line: a string accepted by the ISO parser. -/
def dateParses : JVal → Bool
  | .str s => (parseISO s).isSome
  | _ => false

/-- Modelled from the spec's words (spec section 4.4 / claim C8): the text
layout the spec asserts — title line, 50-character separator, then per day
exactly one leading blank line, the date line, a rule, four summary lines, a
blank line and the hour lines.  (`renderDayText` at day index 0 emits exactly
this block shape; the source itself emits an additional blank line before
every day after the first.)  Comparison target for the C8 counterexample. -/
def spec_text_layout (lang : Lang) (w : Sections) (loc : String) : List String :=
  [t lang .weather_for ++ " " ++ loc, ruleEq] ++
    ((List.range w.daily_time.length).map fun d =>
      renderDayText lang 0 (jsonDayPure lang w d)).flatten

/-- A concrete well-formed two-day payload (one hourly entry, so the second
day has zero hour lines) used by concrete instantiations. -/
def wBerlin : Sections :=
  ⟨[.str "2024-01-01", .str "2024-01-02"], [.int 3, .int 61], [.num 5, .num 6],
   [.num 1, .num 0], [.num 0, .num 2], [.num 10, .num 12],
   [.str "2024-01-01T00:00", .str "2024-01-01T01:00"],
   [.num (mkRat 12 10), .null], [.num 0, .num (mkRat 3 10)], [.int 61, .int 3]⟩

/-- A payload whose sections are present but empty: every per-day key lookup
would fail, but with zero days nothing is read. -/
def emptyPayload : Payload := ⟨⟨none, none, none, none, none, none⟩, ⟨none, none, none, none⟩⟩

/-- A payload with all keys present and parallel arrays whose single daily
time entry is a truthy integer: only the text renderer's date fallback is
exercised (and, in Python, the final `"\n".join` raises `TypeError`). -/
def intDatePayload : Sections :=
  ⟨[.int 5], [.int 0], [.num 1], [.num 1], [.num 0], [.num 0], [], [], [], []⟩

/-- A well-formed payload exercising the Presenter's degradation paths: a
malformed date string, a null date, null and non-numeric numeric entries, and
an unparsable hourly timestamp. -/
def malformedPayload : Sections :=
  ⟨[.str "not-a-date", .null], [.null, .str "x"], [.null, .null], [.str "abc", .null],
   [.null, .null], [.null, .null], [.str "junk"], [.null], [.null], [.null]⟩

/-- A payload whose daily time array is non-empty while the other daily
arrays are empty: the first day's `daily["weather_code"][0]` access is out of
range. -/
def shortArraysPayload : Sections :=
  ⟨[.str "2024-01-01"], [], [], [], [], [], [], [], [], []⟩

/-! ## Structure lemmas for the Presenter -/

/-- A value accepted by the date parser is in particular date-safe. -/
theorem dateSafe_of_parses {v : JVal} (h : dateParses v = true) : dateSafe v = true := by
  cases v <;> simp_all [dateParses, dateSafe]

/-- Sequencing after a success just continues. -/
theorem ok_bind {α β : Type} (a : α) (f : α → Except Unit β) :
    (Except.ok a : Except Unit α) >>= f = f a := rfl

/-- Indexing within bounds returns the element. -/
theorem getIdx_lt {l : List JVal} {i : Nat} (h : i < l.length) :
    getIdx l i = .ok (l.getD i .null) := by
  unfold getIdx
  rw [List.getD_eq_getElem?_getD, List.getElem?_eq_getElem h]
  rfl

/-- `exceptMap` over a list on which the body always succeeds is the map of
the success values. -/
theorem exceptMap_ok {α β : Type} {f : α → Except Unit β} {g : α → β} :
    ∀ l : List α, (∀ a ∈ l, f a = .ok (g a)) → exceptMap f l = .ok (l.map g)
  | [], _ => rfl
  | a :: l, h => by
    have ha := h a (List.mem_cons_self a l)
    have hl := exceptMap_ok l fun b hb => h b (List.mem_cons_of_mem a hb)
    simp only [exceptMap, ha, hl, List.map_cons]
    rfl

/-- Membership in the hour-index range. -/
theorem mem_hourIdx {i d total : Nat} (h : i ∈ hourIdx d total) :
    24 * d ≤ i ∧ i < total ∧ i < 24 * d + 24 := by
  unfold hourIdx at h
  rw [List.mem_range'_1] at h
  omega

/-- The in-bounds hour-index range mapped through `getD` is the clipped
slice `[s, s+k)` of the list. -/
theorem range'_map_getD {α : Type} (l : List α) (x : α) (s k : Nat) :
    (List.range' s (min k (l.length - s))).map (fun i => l.getD i x) = (l.drop s).take k := by
  apply List.ext_getElem
  · simp
  · intro i h1 h2
    simp only [List.getElem_map, List.getElem_range', List.getElem_take, List.getElem_drop]
    have hi : s + 1 * i < l.length := by
      simp only [List.length_map, List.length_range'] at h1
      omega
    rw [List.getD_eq_getElem _ _ hi]
    congr 1
    omega

/-- One hourly iteration of the JSON renderer succeeds with the pure value on
a well-formed payload. -/
theorem jsonHourM_eq (lang : Lang) (w : Sections) (i : Nat)
    (hi : i < w.hourly_time.length) (hlen : sectionsLenOk w) :
    jsonHourM lang (mkPayload w) w.hourly_time i =
      .ok (jsonHourPure lang w.hourly_time w.hourly_temp w.hourly_prec w.hourly_wc i) := by
  obtain ⟨-, -, -, -, -, h6, h7, h8⟩ := hlen
  have e1 := getIdx_lt (lt_of_lt_of_le hi h8)
  have e2 := getIdx_lt hi
  have e3 := getIdx_lt (lt_of_lt_of_le hi h6)
  have e4 := getIdx_lt (lt_of_lt_of_le hi h7)
  simp only [jsonHourM, mkPayload, getKey, ok_bind, e1, e2, e3, e4]
  rfl

/-- One day iteration of the JSON renderer succeeds with the pure value on a
well-formed payload. -/
theorem jsonDayM_eq (lang : Lang) (w : Sections) (d : Nat)
    (hd : d < w.daily_time.length) (hlen : sectionsLenOk w) :
    jsonDayM lang (mkPayload w) w.daily_time d = .ok (jsonDayPure lang w d) := by
  have ehours := exceptMap_ok (hourIdx d w.hourly_time.length)
    (fun i hi => jsonHourM_eq lang w i (mem_hourIdx hi).2.1 hlen)
  simp only [mkPayload] at ehours
  obtain ⟨h1, h2, h3, h4, h5, -, -, -⟩ := hlen
  have e0 := getIdx_lt hd
  have e1 := getIdx_lt (lt_of_lt_of_le hd h1)
  have e2 := getIdx_lt (lt_of_lt_of_le hd h2)
  have e3 := getIdx_lt (lt_of_lt_of_le hd h3)
  have e4 := getIdx_lt (lt_of_lt_of_le hd h4)
  have e5 := getIdx_lt (lt_of_lt_of_le hd h5)
  simp only [jsonDayM, mkPayload, getKey, ok_bind, e0, e1, e2, e3, e4, e5, ehours]
  rfl

/-- `format_weather_json` on a well-formed payload succeeds with the per-day
pure values. -/
theorem format_weather_json_eq (lang : Lang) (w : Sections) (loc : String)
    (hlen : sectionsLenOk w) :
    format_weather_json lang (mkPayload w) loc =
      .ok ⟨loc, (List.range w.daily_time.length).map (jsonDayPure lang w)⟩ := by
  have edays := exceptMap_ok (List.range w.daily_time.length)
    (fun d hd => jsonDayM_eq lang w d (List.mem_range.mp hd) hlen)
  simp only [mkPayload] at edays
  simp only [format_weather_json, mkPayload, getKey, ok_bind, edays]

/-- One hourly iteration of the text renderer succeeds with the rendering of
the pure JSON-hour value on a well-formed payload. -/
theorem textHourM_eq (lang : Lang) (w : Sections) (i : Nat)
    (hi : i < w.hourly_time.length) (hlen : sectionsLenOk w) :
    textHourM lang (mkPayload w) w.hourly_time i =
      .ok (renderHourText
        (jsonHourPure lang w.hourly_time w.hourly_temp w.hourly_prec w.hourly_wc i)) := by
  obtain ⟨-, -, -, -, -, h6, h7, h8⟩ := hlen
  have e1 := getIdx_lt (lt_of_lt_of_le hi h8)
  have e2 := getIdx_lt hi
  have e3 := getIdx_lt (lt_of_lt_of_le hi h6)
  have e4 := getIdx_lt (lt_of_lt_of_le hi h7)
  simp only [textHourM, mkPayload, getKey, ok_bind, e1, e2, e3, e4]
  rfl

/-- One day iteration of the text renderer succeeds, and its block is the
rendering of the pure JSON-day value, on a well-formed payload whose daily
time entry is date-safe. -/
theorem textDayM_eq (lang : Lang) (w : Sections) (d : Nat)
    (hd : d < w.daily_time.length) (hlen : sectionsLenOk w)
    (hdate : dateSafe (w.daily_time.getD d .null) = true) :
    textDayM lang (mkPayload w) w.daily_time d =
      .ok (renderDayText lang d (jsonDayPure lang w d)) := by
  have ehours := exceptMap_ok (hourIdx d w.hourly_time.length)
    (fun i hi => textHourM_eq lang w i (mem_hourIdx hi).2.1 hlen)
  simp only [mkPayload] at ehours
  obtain ⟨h1, h2, h3, h4, h5, -, -, -⟩ := hlen
  have e0 := getIdx_lt hd
  have e1 := getIdx_lt (lt_of_lt_of_le hd h1)
  have e2 := getIdx_lt (lt_of_lt_of_le hd h2)
  have e3 := getIdx_lt (lt_of_lt_of_le hd h3)
  have e4 := getIdx_lt (lt_of_lt_of_le hd h4)
  have e5 := getIdx_lt (lt_of_lt_of_le hd h5)
  have edate : dateLineM lang (w.daily_time.getD d .null) =
      .ok (dateText lang (w.daily_time.getD d .null)) := by
    unfold dateLineM; rw [if_pos hdate]
  simp only [textDayM, mkPayload, getKey, ok_bind, e0, e1, e2, e3, e4, e5, edate, ehours]
  simp only [renderDayText, jsonDayPure, List.map_map]
  rfl

/-- `format_weather_lines` on a well-formed payload with date-safe daily time
entries succeeds, and its lines are the header plus the concatenated per-day
blocks rendered from the pure JSON-day values. -/
theorem format_weather_lines_eq (lang : Lang) (w : Sections) (loc : String)
    (hlen : sectionsLenOk w)
    (hdates : ∀ v ∈ w.daily_time, dateSafe v = true) :
    format_weather_lines lang (mkPayload w) loc =
      .ok ([t lang .weather_for ++ " " ++ loc, ruleEq] ++
        ((List.range w.daily_time.length).map fun d =>
          renderDayText lang d (jsonDayPure lang w d)).flatten) := by
  have eblocks := exceptMap_ok (List.range w.daily_time.length)
    (fun d hd => textDayM_eq lang w d (List.mem_range.mp hd) hlen (by
      have hdlt := List.mem_range.mp hd
      rw [List.getD_eq_getElem _ _ hdlt]
      exact hdates _ (List.getElem_mem hdlt)))
  simp only [mkPayload] at eblocks
  simp only [format_weather_lines, mkPayload, getKey, ok_bind, eblocks]

/-- `getD` on a map over `List.range`. -/
theorem getD_map_range {α : Type} [Inhabited α] (n d : Nat) (f : Nat → α)
    (hd : d < n) : ((List.range n).map f).getD d default = f d := by
  rw [List.getD_eq_getElem?_getD, List.getElem?_map, List.getElem?_range hd]
  rfl

/-! ## Claim theorems -/

/-- C1: For every name-search response with more than one result, if any
result differs from the first in latitude or longitude, `search_by_name`
prints the ambiguity notice plus the postal-code hint and terminates with
exit code 5; if all results share the first result's coordinates (any result
count), it behaves exactly as on the single-result response `[first]` — in
particular it never exits with the ambiguous code — proceeding with the
first result. -/
theorem c1_name_ambiguity (lang : Lang) (name : String) (first : GeoResult)
    (rest : List GeoResult) :
    ((∃ r ∈ rest, r.latitude ≠ first.latitude ∨ r.longitude ≠ first.longitude) →
      search_by_name lang name (first :: rest) =
        .exit EXIT_AMBIGUOUS [msg_ambiguous_name lang name, "  " ++ t lang .use_plz]) ∧
    ((∀ r ∈ first :: rest, r.latitude = first.latitude ∧ r.longitude = first.longitude) →
      search_by_name lang name (first :: rest) = search_by_name lang name [first] ∧
      ∀ diag, search_by_name lang name (first :: rest) ≠ .exit EXIT_AMBIGUOUS diag) := by
  constructor
  · rintro ⟨r, hr, hne⟩
    have hlen : (first :: rest).length > 1 := by
      have := List.length_pos.mpr (List.ne_nil_of_mem hr)
      simp only [List.length_cons]; omega
    have hany : (rest.any fun r =>
        decide (r.latitude ≠ first.latitude ∨ r.longitude ≠ first.longitude)) = true :=
      List.any_eq_true.mpr ⟨r, hr, decide_eq_true hne⟩
    rw [search_by_name, if_pos ⟨hlen, hany⟩]
  · intro hall
    have hany : ¬ ((rest.any fun r =>
        decide (r.latitude ≠ first.latitude ∨ r.longitude ≠ first.longitude)) = true) := by
      rw [List.any_eq_true]
      rintro ⟨r, hr, hdec⟩
      have hco := hall r (List.mem_cons_of_mem _ hr)
      rw [decide_eq_true_eq] at hdec
      exact hdec.elim (fun h => h hco.1) (fun h => h hco.2)
    have hnc : ¬ ((first :: rest).length > 1 ∧ (rest.any fun r =>
        decide (r.latitude ≠ first.latitude ∨ r.longitude ≠ first.longitude)) = true) :=
      fun h => hany h.2
    constructor
    · rw [search_by_name, if_neg hnc, search_by_name, if_neg (by simp)]
    · intro diag
      rw [search_by_name, if_neg hnc]
      cases first.latitude <;> cases first.longitude <;>
        simp [error_exit, EXIT_API_ERROR, EXIT_AMBIGUOUS]

/-- C1 witness: a concrete two-result response with differing coordinates
exits with code 5 and the two diagnostic lines, and a concrete two-result
response with identical coordinates proceeds like the single-result one. -/
theorem c1_name_ambiguity_witness :
    search_by_name .en "Berlin" [⟨some (mkRat 5252 100), some (mkRat 134 10), some "Berlin", some "Germany"⟩,
        ⟨some (mkRat 1 1), some (mkRat 134 10), some "Berlin", some "USA"⟩] =
      .exit EXIT_AMBIGUOUS [msg_ambiguous_name .en "Berlin", "  " ++ t .en .use_plz] ∧
    search_by_name .en "Berlin" [⟨some (mkRat 5252 100), some (mkRat 134 10), some "Berlin", some "Germany"⟩,
        ⟨some (mkRat 5252 100), some (mkRat 134 10), some "Berlin", some "Germany"⟩] =
      search_by_name .en "Berlin" [⟨some (mkRat 5252 100), some (mkRat 134 10), some "Berlin", some "Germany"⟩] := by
  constructor
  · exact (c1_name_ambiguity .en "Berlin" _ _).1
      ⟨⟨some (mkRat 1 1), some (mkRat 134 10), some "Berlin", some "USA"⟩, by simp, by decide⟩
  · exact ((c1_name_ambiguity .en "Berlin" _ _).2 (by decide)).1

/-- C2: `search_by_plz` raises postal-code ambiguity — exit code 5, printing
the sorted comma-joined set of distinct uppercased country codes and the
country hint — if and only if no (truthy) country filter was supplied, more
than one result was returned, and the set of distinct uppercased country
codes across all results has more than one element; otherwise it behaves
exactly as on the single-result response `[first]`, proceeding with the
first result. -/
theorem c2_plz_ambiguity (lang : Lang) (plz : String) (cc : Option String)
    (first : NomResult) (rest : List NomResult) :
    ((∃ diag, search_by_plz lang plz cc (first :: rest) = .exit EXIT_AMBIGUOUS diag) ↔
      pyTruthy cc = false ∧ 1 < (first :: rest).length ∧
        1 < ((first :: rest).map countryOf).toFinset.card) ∧
    (pyTruthy cc = false → 1 < (first :: rest).length →
        1 < ((first :: rest).map countryOf).toFinset.card →
      search_by_plz lang plz cc (first :: rest) =
        .exit EXIT_AMBIGUOUS
          [msg_ambiguous_plz lang plz
            (String.intercalate ", " (sortStrings (((first :: rest).map countryOf).dedup))),
           msg_use_country lang plz]) ∧
    (¬ (pyTruthy cc = false ∧ 1 < (first :: rest).length ∧
        1 < ((first :: rest).map countryOf).toFinset.card) →
      search_by_plz lang plz cc (first :: rest) = search_by_plz lang plz cc [first]) := by
  have hcard : ((first :: rest).map countryOf).toFinset.card =
      ((first :: rest).map countryOf).dedup.length := List.card_toFinset _
  by_cases hcond : pyTruthy cc = false ∧ 1 < (first :: rest).length ∧
      1 < ((first :: rest).map countryOf).toFinset.card
  · obtain ⟨h1, h2, h3⟩ := hcond
    rw [hcard] at h3
    have hexit : search_by_plz lang plz cc (first :: rest) =
        .exit EXIT_AMBIGUOUS
          [msg_ambiguous_plz lang plz
            (String.intercalate ", " (sortStrings (((first :: rest).map countryOf).dedup))),
           msg_use_country lang plz] := by
      rw [search_by_plz, if_pos ⟨by rw [h1]; rfl, h2, h3⟩]
    refine ⟨⟨fun _ => ⟨h1, h2, by rw [hcard]; exact h3⟩, fun _ => ⟨_, hexit⟩⟩,
      fun _ _ _ => hexit, fun hc => absurd ⟨h1, h2, by rw [hcard]; exact h3⟩ hc⟩
  · have hno : ¬ ((!pyTruthy cc) = true ∧ (first :: rest).length > 1 ∧
        ((first :: rest).map countryOf).dedup.length > 1) := by
      rw [hcard] at hcond
      simpa [Bool.not_eq_true'] using hcond
    have hproceed : search_by_plz lang plz cc (first :: rest) =
        search_by_plz lang plz cc [first] := by
      rw [search_by_plz, if_neg hno, search_by_plz, if_neg (by simp)]
    refine ⟨⟨?_, fun hc => absurd hc hcond⟩, fun h1 h2 h3 => absurd ⟨h1, h2, h3⟩ hcond,
      fun _ => hproceed⟩
    rintro ⟨diag, hd⟩
    rw [hproceed, search_by_plz, if_neg (by simp)] at hd
    revert hd
    rcases first with ⟨lat, lon, addr⟩
    cases lat <;> cases lon <;> dsimp
    · simp
    · simp
    · simp
    · rename_i latS lonS
      cases pyFloat? latS <;> cases pyFloat? lonS <;> simp

/-- C2 witness: the spec's scenario — postal code 10115, no country filter,
results in both DE and AT — exits with code 5 listing `"AT, DE"`; and a
single-result response proceeds (here: to the resolved location). -/
theorem c2_plz_ambiguity_witness :
    search_by_plz .en "10115" none
      [⟨some "52.5", some "13.4", { emptyAddress with country_code := some "de" }⟩,
       ⟨some "48.2", some "16.3", { emptyAddress with country_code := some "at" }⟩] =
      .exit EXIT_AMBIGUOUS
        [msg_ambiguous_plz .en "10115" "AT, DE", msg_use_country .en "10115"] := by
  have h := (c2_plz_ambiguity .en "10115" none
    ⟨some "52.5", some "13.4", { emptyAddress with country_code := some "de" }⟩
    [⟨some "48.2", some "16.3", { emptyAddress with country_code := some "at" }⟩]).2.1
    (by decide) (by decide) (by decide)
  exact h.trans (by decide)

/-- C6: `safe_float` maps `None` to the default 0.0, the non-numeric string
`"abc"` to 0.0 and the integer 3 to 3.0; in general every value on which
Python `float()` would fail (or `None`) becomes the supplied default. -/
theorem c6_safe_float :
    safe_float .null 0 = 0 ∧ safe_float (.str "abc") 0 = 0 ∧ safe_float (.int 3) 0 = 3 ∧
    ∀ v d, floatConvertible v = false → safe_float v d = d := by
  refine ⟨rfl, rfl, by decide, ?_⟩
  intro v d h
  cases v with
  | null => rfl
  | bool b => simp [floatConvertible] at h
  | int n => simp [floatConvertible] at h
  | num q => simp [floatConvertible] at h
  | str s =>
    cases hp : pyFloat? s with
    | none => simp [safe_float, hp]
    | some q => exfalso; simp [floatConvertible, hp] at h

/-- C6 witness: the general clause applied at the concrete inconvertible
string `"1.2.3"` with default 7. -/
theorem c6_safe_float_witness : safe_float (.str "1.2.3") 7 = 7 :=
  c6_safe_float.2.2.2 (.str "1.2.3") 7 (by decide)

/-- C7: any day-count argument accepted by the argparse check (`int`
conversion plus membership in `range(1, 17)`, default 1) lies in `[1, 16]`;
`main` passes exactly this accepted value (`args.tage`, line 516) to
`get_weather`, so the Forecast Fetcher is never invoked with a day count
outside `[1, 16]`. -/
theorem c7_days_range (arg : Option String) (n : Int)
    (h : parse_tage arg = .ok n) : 1 ≤ n ∧ n ≤ 16 := by
  cases arg with
  | none =>
    simp only [parse_tage] at h
    cases h; decide
  | some s =>
    simp only [parse_tage] at h
    cases hp : pyInt? s <;> rw [hp] at h
    · exact absurd h (by simp)
    · rename_i m
      dsimp at h
      split at h
      · cases h; assumption
      · exact absurd h (by simp)

/-- C7 witness: the check at the concrete raw argument `"5"`. -/
theorem c7_days_range_witness :
    parse_tage (some "5") = .ok 5 ∧ 1 ≤ (5 : Int) ∧ (5 : Int) ≤ 16 :=
  ⟨rfl, c7_days_range (some "5") 5 rfl⟩

/-- C10: on the postal-code path the first result's `lat`/`lon` are read with
an unguarded `result["lat"]` lookup and converted with an unguarded
`float(...)`: a non-empty unambiguous response whose first result lacks the
coordinate fields, or holds a non-numeric string there, makes `search_by_plz`
raise an uncaught exception rather than exit with a defined code — while the
analogous missing-coordinates case in `search_by_name` exits cleanly with
the API-error code 3. -/
theorem c10_plz_unguarded_coords :
    search_by_plz .en "10115" none [⟨none, none, emptyAddress⟩] = .raise ∧
    search_by_plz .en "10115" none [⟨some "abc", some "13.4", emptyAddress⟩] = .raise ∧
    search_by_name .en "Berlin" [⟨none, some (mkRat 134 10), some "Berlin", some "Germany"⟩] =
      .exit EXIT_API_ERROR [t .en .error ++ ": " ++ t .en .missing_coords] := by
  refine ⟨rfl, by decide, by decide⟩

/-- C3 counterexample: the claim fails as stated.  Payloads that do contain
`daily` and `hourly` sections still make both Presenter functions raise when
a required key is missing (`KeyError`), when a non-time array is shorter than
its time array (`IndexError`), or — text output only — when a daily time
entry is a truthy non-string (deferred `TypeError` in `"\n".join`). -/
theorem c3_presenter_not_total :
    format_weather .en emptyPayload "Berlin" = .error () ∧
    format_weather_json .en emptyPayload "Berlin" = .error () ∧
    format_weather_json .en (mkPayload shortArraysPayload) "Berlin" = .error () ∧
    format_weather .en (mkPayload shortArraysPayload) "Berlin" = .error () ∧
    format_weather .en (mkPayload intDatePayload) "Berlin" = .error () := by
  exact ⟨rfl, rfl, rfl, rfl, rfl⟩

/-- C3 amended: on payloads whose sections contain all required arrays, with
every non-time array at least as long as its section's time array and every
daily time entry a string or null, both Presenter functions are total: they
succeed with safe defaults for malformed dates and missing (null) or
non-numeric field values, and never raise. -/
theorem c3_presenter_total (lang : Lang) (w : Sections) (loc : String)
    (hlen : sectionsLenOk w) (hdates : ∀ v ∈ w.daily_time, dateSafe v = true) :
    (∃ s, format_weather lang (mkPayload w) loc = .ok s) ∧
    ∃ j, format_weather_json lang (mkPayload w) loc = .ok j := by
  constructor
  · exact ⟨_, by rw [format_weather, format_weather_lines_eq lang w loc hlen hdates]; rfl⟩
  · exact ⟨_, format_weather_json_eq lang w loc hlen⟩

/-- C3 witness: the amended totality at a concrete payload full of malformed
dates and missing numeric values. -/
theorem c3_presenter_total_witness :
    (∃ s, format_weather .en (mkPayload malformedPayload) "Berlin" = .ok s) ∧
    ∃ j, format_weather_json .en (mkPayload malformedPayload) "Berlin" = .ok j :=
  c3_presenter_total .en malformedPayload "Berlin" (by decide) (by decide)

/-- C4: for every day index `d`, the hourly entries rendered for day `d` are
exactly the slice of the hourly arrays at indices `[24d, 24d+24)` clipped to
the length of the hourly time array: the JSON day's hourly list has length
`min 24 (total - 24d)` (truncated subtraction) and equals the clipped slices
of the arrays, both renderers succeed (no access past any array end), and in
the text output day `d`'s block carries exactly those entries as its hour
lines. -/
theorem c4_hourly_slice (lang : Lang) (w : Sections) (loc : String) (d : Nat)
    (hlen : sectionsLenOk w) (hdates : ∀ v ∈ w.daily_time, dateSafe v = true)
    (hd : d < w.daily_time.length)
    (hpar : w.hourly_temp.length = w.hourly_time.length ∧
            w.hourly_prec.length = w.hourly_time.length ∧
            w.hourly_wc.length = w.hourly_time.length) :
    ∃ days, format_weather_json lang (mkPayload w) loc = .ok ⟨loc, days⟩ ∧
      days.length = w.daily_time.length ∧
      (days.getD d default).hourly.length = min 24 (w.hourly_time.length - 24 * d) ∧
      (days.getD d default).hourly.map (·.time) = (w.hourly_time.drop (24 * d)).take 24 ∧
      (days.getD d default).hourly.map (·.temperature) =
        ((w.hourly_temp.drop (24 * d)).take 24).map (safe_float · 0) ∧
      (days.getD d default).hourly.map (·.precipitation) =
        ((w.hourly_prec.drop (24 * d)).take 24).map (safe_float · 0) ∧
      (days.getD d default).hourly.map (·.weather_code) = (w.hourly_wc.drop (24 * d)).take 24 ∧
      format_weather_lines lang (mkPayload w) loc =
        .ok ([t lang .weather_for ++ " " ++ loc, ruleEq] ++
          ((List.range days.length).map fun e =>
            renderDayText lang e (days.getD e default)).flatten) ∧
      (renderDayText lang d (days.getD d default)).drop (if 0 < d then 9 else 8) =
        (days.getD d default).hourly.map renderHourText := by
  refine ⟨(List.range w.daily_time.length).map (jsonDayPure lang w),
    format_weather_json_eq lang w loc hlen, by simp, ?_⟩
  have hday : ((List.range w.daily_time.length).map (jsonDayPure lang w)).getD d default =
      jsonDayPure lang w d := getD_map_range _ _ _ hd
  rw [hday]
  have hlenh : (jsonDayPure lang w d).hourly.length =
      min 24 (w.hourly_time.length - 24 * d) := by
    simp [jsonDayPure, hourIdx]
  have htime : (jsonDayPure lang w d).hourly.map (·.time) =
      (w.hourly_time.drop (24 * d)).take 24 := by
    simp only [jsonDayPure, List.map_map]
    exact range'_map_getD w.hourly_time .null (24 * d) 24
  have htemp : (jsonDayPure lang w d).hourly.map (·.temperature) =
      ((w.hourly_temp.drop (24 * d)).take 24).map (safe_float · 0) := by
    simp only [jsonDayPure, List.map_map]
    rw [← range'_map_getD w.hourly_temp .null (24 * d) 24, List.map_map]
    unfold hourIdx
    rw [hpar.1]
    rfl
  have hprec : (jsonDayPure lang w d).hourly.map (·.precipitation) =
      ((w.hourly_prec.drop (24 * d)).take 24).map (safe_float · 0) := by
    simp only [jsonDayPure, List.map_map]
    rw [← range'_map_getD w.hourly_prec .null (24 * d) 24, List.map_map]
    unfold hourIdx
    rw [hpar.2.1]
    rfl
  have hwc : (jsonDayPure lang w d).hourly.map (·.weather_code) =
      (w.hourly_wc.drop (24 * d)).take 24 := by
    simp only [jsonDayPure, List.map_map]
    rw [← range'_map_getD w.hourly_wc .null (24 * d) 24]
    unfold hourIdx
    rw [hpar.2.2]
    rfl
  have hlines : format_weather_lines lang (mkPayload w) loc =
      .ok ([t lang .weather_for ++ " " ++ loc, ruleEq] ++
        ((List.range (((List.range w.daily_time.length).map (jsonDayPure lang w)).length)).map
          fun e => renderDayText lang e
            (((List.range w.daily_time.length).map (jsonDayPure lang w)).getD e default)).flatten) := by
    rw [format_weather_lines_eq lang w loc hlen hdates]
    congr 1
    congr 1
    congr 1
    rw [List.length_map, List.length_range]
    exact List.map_congr_left fun e he =>
      congrArg (renderDayText lang e) (getD_map_range _ _ _ (List.mem_range.mp he)).symm
  refine ⟨hlenh, htime, htemp, hprec, hwc, hlines, ?_⟩
  cases d with
  | zero => simp [renderDayText]
  | succ e => simp [renderDayText]

/-- C5: cross-format consistency on well-formed payloads — the JSON rendering
succeeds with a tree of `days`, the text rendering succeeds, and the text
lines are exactly the header plus, for each day index, a block computed from
that day's JSON record alone (same day count, same per-day weather codes and
descriptions, same per-day and per-hour numeric values). -/
theorem c5_cross_format (lang : Lang) (w : Sections) (loc : String)
    (hlen : sectionsLenOk w) (hdates : ∀ v ∈ w.daily_time, dateSafe v = true) :
    ∃ days, format_weather_json lang (mkPayload w) loc = .ok ⟨loc, days⟩ ∧
      days.length = w.daily_time.length ∧
      format_weather_lines lang (mkPayload w) loc =
        .ok ([t lang .weather_for ++ " " ++ loc, ruleEq] ++
          ((List.range days.length).map fun d =>
            renderDayText lang d (days.getD d default)).flatten) ∧
      format_weather lang (mkPayload w) loc =
        .ok (String.intercalate "\n"
          ([t lang .weather_for ++ " " ++ loc, ruleEq] ++
            ((List.range days.length).map fun d =>
              renderDayText lang d (days.getD d default)).flatten)) := by
  refine ⟨(List.range w.daily_time.length).map (jsonDayPure lang w),
    format_weather_json_eq lang w loc hlen, by simp, ?_, ?_⟩ <;>
  · have hlines : format_weather_lines lang (mkPayload w) loc =
        .ok ([t lang .weather_for ++ " " ++ loc, ruleEq] ++
          ((List.range (((List.range w.daily_time.length).map (jsonDayPure lang w)).length)).map
            fun d => renderDayText lang d
              (((List.range w.daily_time.length).map (jsonDayPure lang w)).getD d default)).flatten) := by
      rw [format_weather_lines_eq lang w loc hlen hdates]
      congr 1
      congr 1
      congr 1
      rw [List.length_map, List.length_range]
      exact List.map_congr_left fun e he =>
        congrArg (renderDayText lang e) (getD_map_range _ _ _ (List.mem_range.mp he)).symm
    first
      | exact hlines
      | (rw [format_weather, hlines]; rfl)

/-- C8 counterexample: the layout as claimed — exactly one blank line opening
each day's block — does not match the text rendering: on a concrete
well-formed two-day payload the source emits 21 lines where the claimed
layout has 20 (an extra blank line precedes the second day). -/
theorem c8_layout_counterexample :
    (format_weather_lines .en (mkPayload wBerlin) "X").toOption.map List.length = some 21 ∧
    (spec_text_layout .en wBerlin "X").length = 20 ∧
    format_weather_lines .en (mkPayload wBerlin) "X" ≠
      .ok (spec_text_layout .en wBerlin "X") := by
  refine ⟨by decide, by decide, ?_⟩
  intro h
  have h1 : (format_weather_lines .en (mkPayload wBerlin) "X").toOption.map List.length =
      some 21 := by decide
  rw [h] at h1
  have h2 : (spec_text_layout .en wBerlin "X").length = 20 := by decide
  simp [Except.toOption, h2] at h1

/-- C8 amended: on well-formed payloads whose daily time entries are
parseable ISO dates, the text rendering is the title line
`"{t('weather_for')} {location}"`, a separator of exactly 50 `=` characters,
then for each day a block of: one leading blank line for the first day and
two for every later day, a `DD.MM.YYYY (Weekday)` date line, a 50-dash rule,
the four labelled summary lines, a blank line, and one line per hour. -/
theorem c8_text_layout (lang : Lang) (w : Sections) (loc : String)
    (hlen : sectionsLenOk w) (hdatesP : ∀ v ∈ w.daily_time, dateParses v = true) :
    format_weather_lines lang (mkPayload w) loc =
      .ok ([t lang .weather_for ++ " " ++ loc, ruleEq] ++
        ((List.range w.daily_time.length).map fun d =>
          renderDayText lang d (jsonDayPure lang w d)).flatten) ∧
    ruleEq.length = 50 ∧ (∀ c ∈ ruleEq.data, c = '=') ∧
    (∀ d day, renderDayText lang d day =
      (if 0 < d then [""] else []) ++
      ["", dateText lang day.date, ruleDash,
       padRight (t lang .condition) 14 ++ " " ++ day.weather_description,
       padRight (t lang .temperature) 14 ++ " " ++ fmt1 day.temperature_min ++ "°C " ++
         t lang .to ++ " " ++ fmt1 day.temperature_max ++ "°C",
       padRight (t lang .precipitation) 14 ++ " " ++ fmt1 day.precipitation_sum ++ " mm",
       padRight (t lang .wind_max) 14 ++ " " ++ fmt1 day.wind_speed_max ++ " km/h",
       ""] ++ day.hourly.map renderHourText) ∧
    ∀ d, d < w.daily_time.length → ∃ st : IsoStamp,
      dateText lang ((jsonDayPure lang w d).date) =
        pad2 st.day ++ "." ++ pad2 st.month ++ "." ++ toString st.year ++
          " (" ++ get_weekday lang (pyWeekday st.year st.month st.day) ++ ")" := by
  refine ⟨format_weather_lines_eq lang w loc hlen
      (fun v hv => dateSafe_of_parses (hdatesP v hv)), by decide, by decide,
    fun d day => rfl, ?_⟩
  intro d hd
  have hv : dateParses (w.daily_time.getD d .null) = true := by
    rw [List.getD_eq_getElem _ _ hd]
    exact hdatesP _ (List.getElem_mem hd)
  have hdate : (jsonDayPure lang w d).date = w.daily_time.getD d .null := rfl
  rw [hdate]
  cases hval : w.daily_time.getD d .null <;> rw [hval] at hv <;>
    simp only [dateParses] at hv
  · exact absurd hv (by simp)
  · exact absurd hv (by simp)
  · exact absurd hv (by simp)
  · exact absurd hv (by simp)
  · rename_i s
    cases hps : parseISO s with
    | none => rw [hps] at hv; exact absurd hv (by simp)
    | some st =>
      refine ⟨st, ?_⟩
      simp [dateText, hps]

/-- C9: in the text rendering, on well-formed payloads, every hourly line is
the base `"  HH:MM  temp°C  description"` string with the `", {precip}mm"`
suffix appended exactly when that hour's safely-converted precipitation is
strictly positive; zero or missing precipitation produces the bare base
line.  The line for hour index `i` of day `d` occurs in the output. -/
theorem c9_precip_suffix (lang : Lang) (w : Sections) (loc : String) (d i : Nat)
    (hlen : sectionsLenOk w) (hdates : ∀ v ∈ w.daily_time, dateSafe v = true)
    (hd : d < w.daily_time.length) (hi : i ∈ hourIdx d w.hourly_time.length) :
    ∃ lines, format_weather_lines lang (mkPayload w) loc = .ok lines ∧
      renderHourText (jsonHourPure lang w.hourly_time w.hourly_temp w.hourly_prec w.hourly_wc i)
        ∈ lines ∧
      (0 < safe_float (w.hourly_prec.getD i .null) 0 →
        renderHourText (jsonHourPure lang w.hourly_time w.hourly_temp w.hourly_prec w.hourly_wc i) =
          "  " ++ hourTimeText (w.hourly_time.getD i .null) ++ "  " ++
            padLeft (fmt1 (safe_float (w.hourly_temp.getD i .null) 0)) 5 ++ "°C  " ++
            get_weather_desc lang (w.hourly_wc.getD i .null) ++
            (", " ++ fmt1 (safe_float (w.hourly_prec.getD i .null) 0) ++ "mm")) ∧
      (¬ 0 < safe_float (w.hourly_prec.getD i .null) 0 →
        renderHourText (jsonHourPure lang w.hourly_time w.hourly_temp w.hourly_prec w.hourly_wc i) =
          "  " ++ hourTimeText (w.hourly_time.getD i .null) ++ "  " ++
            padLeft (fmt1 (safe_float (w.hourly_temp.getD i .null) 0)) 5 ++ "°C  " ++
            get_weather_desc lang (w.hourly_wc.getD i .null)) := by
  refine ⟨_, format_weather_lines_eq lang w loc hlen hdates, ?_, ?_, ?_⟩
  · apply List.mem_append_right
    rw [List.mem_flatten]
    refine ⟨renderDayText lang d (jsonDayPure lang w d), ?_, ?_⟩
    · exact List.mem_map_of_mem _ (List.mem_range.mpr hd)
    · unfold renderDayText
      apply List.mem_append_right
      have hmem : jsonHourPure lang w.hourly_time w.hourly_temp w.hourly_prec w.hourly_wc i
          ∈ (jsonDayPure lang w d).hourly := by
        simp only [jsonDayPure]
        exact List.mem_map_of_mem _ hi
      exact List.mem_map_of_mem _ hmem
  · intro hpos
    rw [List.getD_eq_getElem?_getD] at hpos
    simp [renderHourText, jsonHourPure, List.getD_eq_getElem?_getD, hpos]
  · intro hneg
    rw [List.getD_eq_getElem?_getD] at hneg
    simp [renderHourText, jsonHourPure, List.getD_eq_getElem?_getD, hneg,
      String.append_empty]

/-- C4 witness: the slice property at the concrete two-day payload, day 0. -/
theorem c4_hourly_slice_witness :
    ∃ days, format_weather_json .en (mkPayload wBerlin) "Berlin, Germany" =
        .ok ⟨"Berlin, Germany", days⟩ ∧
      days.length = wBerlin.daily_time.length ∧
      (days.getD 0 default).hourly.length = min 24 (wBerlin.hourly_time.length - 24 * 0) ∧
      (days.getD 0 default).hourly.map (·.time) = (wBerlin.hourly_time.drop (24 * 0)).take 24 ∧
      (days.getD 0 default).hourly.map (·.temperature) =
        ((wBerlin.hourly_temp.drop (24 * 0)).take 24).map (safe_float · 0) ∧
      (days.getD 0 default).hourly.map (·.precipitation) =
        ((wBerlin.hourly_prec.drop (24 * 0)).take 24).map (safe_float · 0) ∧
      (days.getD 0 default).hourly.map (·.weather_code) =
        (wBerlin.hourly_wc.drop (24 * 0)).take 24 ∧
      format_weather_lines .en (mkPayload wBerlin) "Berlin, Germany" =
        .ok ([t .en .weather_for ++ " " ++ "Berlin, Germany", ruleEq] ++
          ((List.range days.length).map fun e =>
            renderDayText .en e (days.getD e default)).flatten) ∧
      (renderDayText .en 0 (days.getD 0 default)).drop (if 0 < 0 then 9 else 8) =
        (days.getD 0 default).hourly.map renderHourText :=
  c4_hourly_slice .en wBerlin "Berlin, Germany" 0 (by decide) (by decide) (by decide) (by decide)

/-- C5 witness: cross-format consistency at the concrete two-day payload. -/
theorem c5_cross_format_witness :
    ∃ days, format_weather_json .en (mkPayload wBerlin) "Berlin, Germany" =
        .ok ⟨"Berlin, Germany", days⟩ ∧
      days.length = wBerlin.daily_time.length ∧
      format_weather_lines .en (mkPayload wBerlin) "Berlin, Germany" =
        .ok ([t .en .weather_for ++ " " ++ "Berlin, Germany", ruleEq] ++
          ((List.range days.length).map fun d =>
            renderDayText .en d (days.getD d default)).flatten) ∧
      format_weather .en (mkPayload wBerlin) "Berlin, Germany" =
        .ok (String.intercalate "\n"
          ([t .en .weather_for ++ " " ++ "Berlin, Germany", ruleEq] ++
            ((List.range days.length).map fun d =>
              renderDayText .en d (days.getD d default)).flatten)) :=
  c5_cross_format .en wBerlin "Berlin, Germany" (by decide) (by decide)

/-- C8 witness: the amended layout at the concrete two-day payload. -/
theorem c8_text_layout_witness :
    format_weather_lines .en (mkPayload wBerlin) "X" =
      .ok ([t .en .weather_for ++ " " ++ "X", ruleEq] ++
        ((List.range wBerlin.daily_time.length).map fun d =>
          renderDayText .en d (jsonDayPure .en wBerlin d)).flatten) ∧
    ruleEq.length = 50 ∧ (∀ c ∈ ruleEq.data, c = '=') ∧
    (∀ d day, renderDayText .en d day =
      (if 0 < d then [""] else []) ++
      ["", dateText .en day.date, ruleDash,
       padRight (t .en .condition) 14 ++ " " ++ day.weather_description,
       padRight (t .en .temperature) 14 ++ " " ++ fmt1 day.temperature_min ++ "°C " ++
         t .en .to ++ " " ++ fmt1 day.temperature_max ++ "°C",
       padRight (t .en .precipitation) 14 ++ " " ++ fmt1 day.precipitation_sum ++ " mm",
       padRight (t .en .wind_max) 14 ++ " " ++ fmt1 day.wind_speed_max ++ " km/h",
       ""] ++ day.hourly.map renderHourText) ∧
    ∀ d, d < wBerlin.daily_time.length → ∃ st : IsoStamp,
      dateText .en ((jsonDayPure .en wBerlin d).date) =
        pad2 st.day ++ "." ++ pad2 st.month ++ "." ++ toString st.year ++
          " (" ++ get_weekday .en (pyWeekday st.year st.month st.day) ++ ")" :=
  c8_text_layout .en wBerlin "X" (by decide) (by decide)

/-- C9 witness: the suffix rule at the concrete payload, day 0, hour index 1
(whose precipitation 0.3 is strictly positive). -/
theorem c9_precip_suffix_witness :
    ∃ lines, format_weather_lines .en (mkPayload wBerlin) "X" = .ok lines ∧
      renderHourText (jsonHourPure .en wBerlin.hourly_time wBerlin.hourly_temp
        wBerlin.hourly_prec wBerlin.hourly_wc 1) ∈ lines ∧
      (0 < safe_float (wBerlin.hourly_prec.getD 1 .null) 0 →
        renderHourText (jsonHourPure .en wBerlin.hourly_time wBerlin.hourly_temp
          wBerlin.hourly_prec wBerlin.hourly_wc 1) =
          "  " ++ hourTimeText (wBerlin.hourly_time.getD 1 .null) ++ "  " ++
            padLeft (fmt1 (safe_float (wBerlin.hourly_temp.getD 1 .null) 0)) 5 ++ "°C  " ++
            get_weather_desc .en (wBerlin.hourly_wc.getD 1 .null) ++
            (", " ++ fmt1 (safe_float (wBerlin.hourly_prec.getD 1 .null) 0) ++ "mm")) ∧
      (¬ 0 < safe_float (wBerlin.hourly_prec.getD 1 .null) 0 →
        renderHourText (jsonHourPure .en wBerlin.hourly_time wBerlin.hourly_temp
          wBerlin.hourly_prec wBerlin.hourly_wc 1) =
          "  " ++ hourTimeText (wBerlin.hourly_time.getD 1 .null) ++ "  " ++
            padLeft (fmt1 (safe_float (wBerlin.hourly_temp.getD 1 .null) 0)) 5 ++ "°C  " ++
            get_weather_desc .en (wBerlin.hourly_wc.getD 1 .null)) :=
  c9_precip_suffix .en wBerlin "X" 0 1 (by decide) (by decide) (by decide) (by decide)

end Weather
